import Mathlib

/-!
# Verification of `base64_converter.py`

A shallow embedding of the repository's single module: the `Base64Converter`
class (stateful wrapper with two optional fields), its encode operation
`arquivo_para_base64`, its decode operation `base64_para_arquivo`, the
convenience entry point `desconverter`, and the `base64_string` property
setter.  The Python standard-library routines the module calls —
`base64.b64encode` and `base64.b64decode` (with its default lenient
`validate=False` behaviour, i.e. CPython's non-strict `binascii.a2b_base64`)
— are embedded as well, since the module's contract depends on them.

Bytes are modelled as `Nat` below 256; text as `String`; the filesystem as a
flat association list from path strings to entries (regular file with
contents, directory, or other special entry).  Parent-directory creation
(`path.parent.mkdir(parents=True, exist_ok=True)`) is not tracked: the flat
model has no directory hierarchy, and no claim depends on it.
-/

instance {ε α : Type} [DecidableEq ε] [DecidableEq α] : DecidableEq (Except ε α) := fun x y =>
  match x, y with
  | Except.ok a, Except.ok b =>
      if h : a = b then isTrue (by rw [h]) else isFalse (by simp [h])
  | Except.error a, Except.error b =>
      if h : a = b then isTrue (by rw [h]) else isFalse (by simp [h])
  | Except.ok _, Except.error _ => isFalse (by simp)
  | Except.error _, Except.ok _ => isFalse (by simp)

/-- The standard base64 alphabet as a table from 6-bit values to characters
(RFC 4648: `A`–`Z`, `a`–`z`, `0`–`9`, `+`, `/`), as used by CPython's
`table_b2a_base64`. -/
def b64index (n : Nat) : Char :=
  if n < 26 then Char.ofNat (65 + n)
  else if n < 52 then Char.ofNat (97 + (n - 26))
  else if n < 62 then Char.ofNat (48 + (n - 52))
  else if n = 62 then '+'
  else '/'

/-- The inverse table (CPython's `table_a2b_base64`): the 6-bit value of a
character of the standard alphabet, `none` for every other character
(including the pad `=`). -/
def b64charIndex (c : Char) : Option Nat :=
  if 'A' ≤ c ∧ c ≤ 'Z' then some (c.toNat - 65)
  else if 'a' ≤ c ∧ c ≤ 'z' then some (c.toNat - 97 + 26)
  else if '0' ≤ c ∧ c ≤ '9' then some (c.toNat - 48 + 52)
  else if c = '+' then some 62
  else if c = '/' then some 63
  else none

/-- `base64.b64encode`: 3 bytes become 4 alphabet characters; a final group
of 1 or 2 bytes is padded with `=` to a full group of 4.  Shifts and masks of
`binascii.b2a_base64` are written as division/multiplication/remainder (the
operands are below 256, so the bit fields are disjoint and `|` is `+`). -/
def b64encodeList : List Nat → List Char
  | [] => []
  | [a] => [b64index (a / 4), b64index (a % 4 * 16), '=', '=']
  | [a, b] => [b64index (a / 4), b64index (a % 4 * 16 + b / 16),
               b64index (b % 16 * 4), '=']
  | a :: b :: c :: rest =>
      b64index (a / 4) :: b64index (a % 4 * 16 + b / 16) ::
      b64index (b % 16 * 4 + c / 64) :: b64index (c % 64) ::
      b64encodeList rest

/-- The loop of CPython's `binascii_a2b_base64_impl` in non-strict mode
(`base64.b64decode` with the default `validate=False`).  State: the position
inside the current 4-character group (`quadPos`), the pending high bits
(`left`), the count of pad characters seen in the current group (`pads`), and
the bytes produced so far in reverse (`acc`).  Characters outside the
alphabet are skipped; a pad sequence completing a group ends the decode;
leftover data at the end of input is an error. -/
def a2bLoop : List Char → Nat → Nat → Nat → List Nat → Except String (List Nat)
  | [], quadPos, _left, _pads, acc =>
      if quadPos = 0 then Except.ok acc.reverse
      else if quadPos = 1 then
        Except.error "number of data characters cannot be 1 more than a multiple of 4"
      else Except.error "Incorrect padding"
  | ch :: rest, quadPos, left, pads, acc =>
      if ch = '=' then
        if 2 ≤ quadPos then
          if 4 ≤ quadPos + (pads + 1) then Except.ok acc.reverse
          else a2bLoop rest quadPos left (pads + 1) acc
        else a2bLoop rest quadPos left pads acc
      else
        match b64charIndex ch with
        | none => a2bLoop rest quadPos left pads acc
        | some v =>
            if quadPos = 0 then a2bLoop rest 1 v 0 acc
            else if quadPos = 1 then
              a2bLoop rest 2 (v % 16) 0 ((left * 4 + v / 16) :: acc)
            else if quadPos = 2 then
              a2bLoop rest 3 (v % 4) 0 ((left * 16 + v / 4) :: acc)
            else a2bLoop rest 0 0 0 ((left * 64 + v) :: acc)

/-- `base64.b64decode` on a `str` argument: the string is first encoded to
ASCII (failure there is also a `ValueError`), then fed to the non-strict
`binascii.a2b_base64`. -/
def b64decode (s : List Char) : Except String (List Nat) :=
  if s.all (fun c => c.toNat < 128) then a2bLoop s 0 0 0 []
  else Except.error "string argument should contain only ASCII characters"

/-- A filesystem entry: a regular file with its byte contents, a directory,
or another special entry (`Path.is_file` is true only for the first). -/
inductive Entry : Type
  | file (content : List Nat)
  | dir
  | special
deriving DecidableEq, Repr

/-- The filesystem: a flat association list from path strings to entries;
the first binding for a path wins, so writing conses a fresh binding. -/
abbrev FS : Type := List (String × Entry)

/-- Look a path up in the filesystem (`Path.exists` ≈ `isSome`). -/
def FS.lookup (fs : FS) (p : String) : Option Entry :=
  List.lookup p fs

/-- `open(path, 'wb')` followed by a full write: (re)bind the path to a
regular file with the given contents. -/
def FS.write (fs : FS) (p : String) (content : List Nat) : FS :=
  (p, Entry.file content) :: fs

/-- Python truthiness of an optional string-or-path argument: `None` and the
empty string are falsy (`if arquivo_path` in the source). -/
def truthy : Option String → Bool
  | none => false
  | some s => s ≠ ""

/-- `Path(arquivo_path) if arquivo_path else self._arquivo_path`: an explicit
truthy argument overrides the stored state. -/
def resolveLocation (explicit stored : Option String) : Option String :=
  if truthy explicit then explicit else stored

/-- The errors the module raises, by Python exception class. -/
inductive PyError : Type
  | valueError (msg : String)
  | fileNotFoundError (msg : String)
  | typeError (msg : String)
deriving DecidableEq, Repr

/-- Outcome of a call: a return value, or a raised exception. -/
inductive Res (α : Type) : Type
  | ok (a : α)
  | err (e : PyError)
deriving DecidableEq, Repr

/-- The two optional state fields of the `Base64Converter` class. -/
structure Base64Converter : Type where
  base64_string : Option String
  arquivo_path : Option String
deriving DecidableEq, Repr

/-- `Base64Converter.__init__`: seeds the two fields; a falsy `arquivo_path`
argument (including the empty string) leaves the path field `None`. -/
def Base64Converter.init (base64_string : Option String)
    (arquivo_path : Option String) : Base64Converter :=
  { base64_string := base64_string
    arquivo_path := if truthy arquivo_path then arquivo_path else none }

/-- A Python value assigned to the `base64_string` property: a string, or one
of the non-string shapes a caller could pass. -/
inductive PyVal : Type
  | str (s : String)
  | intVal (n : Int)
  | noneVal
  | bytesVal (b : List Nat)
deriving DecidableEq, Repr

/-- The `base64_string` property setter: rejects non-`str` values with
`TypeError`, stores strings. -/
def set_base64_string (self : Base64Converter) (value : PyVal) :
    Res Unit × Base64Converter :=
  match value with
  | PyVal.str s => (Res.ok (), { self with base64_string := some s })
  | _ => (Res.err (PyError.typeError "base64_string deve ser uma string"), self)

/-- `Base64Converter.arquivo_para_base64`: resolve the source location
(explicit-over-stored), check it exists and is a regular file, read it,
encode, store the text, return it.  The result is the returned value or
raised error, together with the converter state and filesystem at exit. -/
def arquivo_para_base64 (self : Base64Converter) (fs : FS)
    (arquivo_path : Option String) : Res String × Base64Converter × FS :=
  match resolveLocation arquivo_path self.arquivo_path with
  | none =>
      (Res.err (PyError.valueError "É necessário fornecer um caminho de arquivo"),
       self, fs)
  | some path =>
      match FS.lookup fs path with
      | none =>
          (Res.err (PyError.fileNotFoundError ("Arquivo não encontrado: " ++ path)),
           self, fs)
      | some (Entry.file conteudo) =>
          let base64_encoded := String.mk (b64encodeList conteudo)
          (Res.ok base64_encoded,
           { self with base64_string := some base64_encoded }, fs)
      | some _ =>
          (Res.err (PyError.valueError ("O caminho não é um arquivo: " ++ path)),
           self, fs)

/-- `base64_string if base64_string is not None else self._base64_string`:
an explicit text argument (even the empty string) overrides the stored one;
only `None` falls back. -/
def resolveText (explicit stored : Option String) : Option String :=
  match explicit with
  | some s => some s
  | none => stored

/-- `Base64Converter.base64_para_arquivo`: resolve the text (explicit if not
`None`, else stored) and the destination (explicit if truthy, else stored),
check both are present, decode (wrapping any decode failure in `ValueError`),
write the bytes, store the destination, return it. -/
def base64_para_arquivo (self : Base64Converter) (fs : FS)
    (base64_string : Option String) (arquivo_path : Option String) :
    Res String × Base64Converter × FS :=
  match resolveText base64_string self.base64_string with
  | none =>
      (Res.err (PyError.valueError "É necessário fornecer uma string base64"),
       self, fs)
  | some s =>
      match resolveLocation arquivo_path self.arquivo_path with
      | none =>
          (Res.err (PyError.valueError
            "É necessário fornecer um caminho para salvar o arquivo"), self, fs)
      | some p =>
          match b64decode s.data with
          | Except.error e =>
              (Res.err (PyError.valueError ("String base64 inválida: " ++ e)),
               self, fs)
          | Except.ok conteudo_decodificado =>
              (Res.ok p, { self with arquivo_path := some p },
               FS.write fs p conteudo_decodificado)

/-- `Base64Converter.desconverter`: fail fast with `ValueError` when no text
is stored, otherwise delegate to `base64_para_arquivo` with only the
destination argument. -/
def desconverter (self : Base64Converter) (fs : FS) (arquivo_path : String) :
    Res String × Base64Converter × FS :=
  match self.base64_string with
  | none =>
      (Res.err (PyError.valueError
        "É necessário ter uma string base64. Use converter() primeiro ou forneça base64_string."),
       self, fs)
  | some _ => base64_para_arquivo self fs none (some arquivo_path)

/-- `Base64Converter.converter`: alias for `arquivo_para_base64` with a
required argument. -/
def converter (self : Base64Converter) (fs : FS) (arquivo_path : String) :
    Res String × Base64Converter × FS :=
  arquivo_para_base64 self fs (some arquivo_path)

/-- Decoding table inverts the encoding table on 6-bit values. -/
theorem b64charIndex_b64index : ∀ v, v < 64 → b64charIndex (b64index v) = some v := by decide

/-- Alphabet characters are never the pad character. -/
theorem b64index_ne_pad : ∀ v, v < 64 → b64index v ≠ '=' := by decide

/-- Alphabet characters are ASCII. -/
theorem b64index_ascii : ∀ v, v < 64 → (b64index v).toNat < 128 := by decide

/-- Decoder step on an alphabet character at position 0 of a group. -/
theorem a2bLoop_valid0 (v : Nat) (hv : v < 64) (rest : List Char)
    (left pads : Nat) (acc : List Nat) :
    a2bLoop (b64index v :: rest) 0 left pads acc = a2bLoop rest 1 v 0 acc := by
  rw [a2bLoop, if_neg (b64index_ne_pad v hv), b64charIndex_b64index v hv]
  rfl

/-- Decoder step on an alphabet character at position 1 of a group. -/
theorem a2bLoop_valid1 (v : Nat) (hv : v < 64) (rest : List Char)
    (left pads : Nat) (acc : List Nat) :
    a2bLoop (b64index v :: rest) 1 left pads acc
      = a2bLoop rest 2 (v % 16) 0 ((left * 4 + v / 16) :: acc) := by
  rw [a2bLoop, if_neg (b64index_ne_pad v hv), b64charIndex_b64index v hv]
  rfl

/-- Decoder step on an alphabet character at position 2 of a group. -/
theorem a2bLoop_valid2 (v : Nat) (hv : v < 64) (rest : List Char)
    (left pads : Nat) (acc : List Nat) :
    a2bLoop (b64index v :: rest) 2 left pads acc
      = a2bLoop rest 3 (v % 4) 0 ((left * 16 + v / 4) :: acc) := by
  rw [a2bLoop, if_neg (b64index_ne_pad v hv), b64charIndex_b64index v hv]
  rfl

/-- Decoder step on an alphabet character at position 3 of a group. -/
theorem a2bLoop_valid3 (v : Nat) (hv : v < 64) (rest : List Char)
    (left pads : Nat) (acc : List Nat) :
    a2bLoop (b64index v :: rest) 3 left pads acc
      = a2bLoop rest 0 0 0 ((left * 64 + v) :: acc) := by
  rw [a2bLoop, if_neg (b64index_ne_pad v hv), b64charIndex_b64index v hv]
  rfl

/-- Decoder step on a pad character. -/
theorem a2bLoop_pad (rest : List Char) (quadPos left pads : Nat) (acc : List Nat) :
    a2bLoop ('=' :: rest) quadPos left pads acc =
      if 2 ≤ quadPos then
        if 4 ≤ quadPos + (pads + 1) then Except.ok acc.reverse
        else a2bLoop rest quadPos left (pads + 1) acc
      else a2bLoop rest quadPos left pads acc := by
  rw [a2bLoop, if_pos rfl]

/-- The decode loop inverts the encoder, for any accumulator. -/
theorem a2bLoop_encode : ∀ (B : List Nat), (∀ x ∈ B, x < 256) →
    ∀ acc : List Nat, a2bLoop (b64encodeList B) 0 0 0 acc = Except.ok (acc.reverse ++ B)
  | [], _, acc => by simp [b64encodeList, a2bLoop]
  | [a], hB, acc => by
      have ha : a < 256 := hB a (by simp)
      have e1 : a / 4 * 4 + a % 4 * 16 / 16 = a := by omega
      have e2 : a % 4 * 16 % 16 = 0 := by omega
      rw [b64encodeList, a2bLoop_valid0 _ (by omega), a2bLoop_valid1 _ (by omega),
          e1, e2, a2bLoop_pad]
      simp [a2bLoop_pad]
  | [a, b], hB, acc => by
      have ha : a < 256 := hB a (by simp)
      have hb : b < 256 := hB b (by simp)
      have e1 : a / 4 * 4 + (a % 4 * 16 + b / 16) / 16 = a := by omega
      have e2 : (a % 4 * 16 + b / 16) % 16 = b / 16 := by omega
      have e3 : b / 16 * 16 + b % 16 * 4 / 4 = b := by omega
      have e4 : b % 16 * 4 % 4 = 0 := by omega
      rw [b64encodeList, a2bLoop_valid0 _ (by omega), a2bLoop_valid1 _ (by omega),
          e1, e2, a2bLoop_valid2 _ (by omega), e3, e4, a2bLoop_pad]
      simp
  | a :: b :: c :: rest, hB, acc => by
      have ha : a < 256 := hB a (by simp)
      have hb : b < 256 := hB b (by simp)
      have hc : c < 256 := hB c (by simp)
      have e1 : a / 4 * 4 + (a % 4 * 16 + b / 16) / 16 = a := by omega
      have e2 : (a % 4 * 16 + b / 16) % 16 = b / 16 := by omega
      have e3 : b / 16 * 16 + (b % 16 * 4 + c / 64) / 4 = b := by omega
      have e4 : (b % 16 * 4 + c / 64) % 4 = c / 64 := by omega
      have e5 : c / 64 * 64 + c % 64 = c := by omega
      have ih := a2bLoop_encode rest (fun x hx => hB x (by simp [hx])) (c :: b :: a :: acc)
      rw [b64encodeList, a2bLoop_valid0 _ (by omega), a2bLoop_valid1 _ (by omega),
          e1, e2, a2bLoop_valid2 _ (by omega), e3, e4, a2bLoop_valid3 _ (by omega),
          e5, ih]
      simp

/-- The encoder emits only ASCII characters. -/
theorem b64encodeList_ascii : ∀ (B : List Nat), (∀ x ∈ B, x < 256) →
    (b64encodeList B).all (fun c => c.toNat < 128) = true
  | [], _ => by simp [b64encodeList]
  | [a], hB => by
      have ha : a < 256 := hB a (by simp)
      simp only [b64encodeList, List.all_cons, List.all_nil, Bool.and_eq_true,
        decide_eq_true_eq]
      refine ⟨b64index_ascii _ (by omega), b64index_ascii _ (by omega), by decide⟩
  | [a, b], hB => by
      have ha : a < 256 := hB a (by simp)
      have hb : b < 256 := hB b (by simp)
      simp only [b64encodeList, List.all_cons, List.all_nil, Bool.and_eq_true,
        decide_eq_true_eq]
      refine ⟨b64index_ascii _ (by omega), b64index_ascii _ (by omega),
        b64index_ascii _ (by omega), by decide⟩
  | a :: b :: c :: rest, hB => by
      have ha : a < 256 := hB a (by simp)
      have hb : b < 256 := hB b (by simp)
      have hc : c < 256 := hB c (by simp)
      have ih := b64encodeList_ascii rest (fun x hx => hB x (by simp [hx]))
      simp only [b64encodeList, List.all_cons, Bool.and_eq_true, decide_eq_true_eq]
      exact ⟨b64index_ascii _ (by omega), b64index_ascii _ (by omega),
        b64index_ascii _ (by omega), b64index_ascii _ (by omega), ih⟩

/-- `base64.b64decode` inverts `base64.b64encode` on byte sequences. -/
theorem b64decode_encode (B : List Nat) (hB : ∀ x ∈ B, x < 256) :
    b64decode (b64encodeList B) = Except.ok B := by
  rw [b64decode, if_pos (b64encodeList_ascii B hB)]
  simpa using a2bLoop_encode B hB []

/-- The encoder's output length is `ceil(n/3)*4` for `n` input bytes. -/
theorem b64encodeList_length : ∀ (B : List Nat),
    (b64encodeList B).length = (B.length + 2) / 3 * 4
  | [] => by simp [b64encodeList]
  | [_] => by simp [b64encodeList]
  | [_, _] => by simp [b64encodeList]
  | _ :: _ :: _ :: rest => by
      have ih := b64encodeList_length rest
      simp only [b64encodeList, List.length_cons, ih]
      omega

/-- `String.mk` and `String.data` are inverse. -/
theorem string_data_mk (l : List Char) : (String.mk l).data = l := rfl

/-- A freshly written path is a regular file with the written contents. -/
theorem FS.lookup_write_self (fs : FS) (p : String) (c : List Nat) :
    FS.lookup (FS.write fs p c) p = some (Entry.file c) := by
  simp [FS.lookup, FS.write, List.lookup]

/-- A non-empty explicit location argument overrides the stored one. -/
theorem resolveLocation_some {s : String} (h : s ≠ "") (stored : Option String) :
    resolveLocation (some s) stored = some s := by
  simp [resolveLocation, truthy, h]

/-- Encoding a path that holds a regular file succeeds, returns the base64
text of its contents, stores that text, and leaves the filesystem alone. -/
theorem arquivo_para_base64_file (st : Base64Converter) (fs : FS) (B : List Nat)
    (p : String) (hp : p ≠ "") (hfile : FS.lookup fs p = some (Entry.file B)) :
    arquivo_para_base64 st fs (some p)
      = (Res.ok (String.mk (b64encodeList B)),
         { st with base64_string := some (String.mk (b64encodeList B)) }, fs) := by
  simp [arquivo_para_base64, resolveLocation_some hp, hfile]

/-- Decoding explicit text to a non-empty explicit path succeeds when the
text decodes, writes the bytes there, and stores the destination. -/
theorem base64_para_arquivo_ok (st : Base64Converter) (fs : FS) (s p : String)
    (hp : p ≠ "") (bytes : List Nat) (h : b64decode s.data = Except.ok bytes) :
    base64_para_arquivo st fs (some s) (some p)
      = (Res.ok p, { st with arquivo_path := some p }, FS.write fs p bytes) := by
  simp [base64_para_arquivo, resolveText, resolveLocation_some hp, h]

/-- **C1.** For every byte sequence `B`, writing `B` to a file, encoding that
file with `arquivo_para_base64`, and decoding the resulting text with
`base64_para_arquivo` to a new file yields a file whose contents equal `B`
exactly. -/
theorem c1_roundtrip (B : List Nat) (hB : ∀ x ∈ B, x < 256)
    (fs : FS) (st : Base64Converter) (p q : String) (hp : p ≠ "") (hq : q ≠ "")
    (_hfresh : FS.lookup (FS.write fs p B) q = none) :
    ∃ enc st1 st2 fs2,
      arquivo_para_base64 st (FS.write fs p B) (some p)
        = (Res.ok enc, st1, FS.write fs p B) ∧
      base64_para_arquivo st1 (FS.write fs p B) (some enc) (some q)
        = (Res.ok q, st2, fs2) ∧
      FS.lookup fs2 q = some (Entry.file B) := by
  refine ⟨String.mk (b64encodeList B), _, _, _,
    arquivo_para_base64_file st (FS.write fs p B) B p hp (FS.lookup_write_self fs p B),
    base64_para_arquivo_ok _ _ _ q hq B ?_, FS.lookup_write_self _ q B⟩
  rw [string_data_mk]
  exact b64decode_encode B hB

/-- **C1 witness.** Concrete round trip of the bytes `[72, 105]`. -/
theorem c1_roundtrip_witness :
    ∃ enc st1 st2 fs2,
      arquivo_para_base64 (Base64Converter.mk none none)
          (FS.write [] "entrada.bin" [72, 105]) (some "entrada.bin")
        = (Res.ok enc, st1, FS.write [] "entrada.bin" [72, 105]) ∧
      base64_para_arquivo st1 (FS.write [] "entrada.bin" [72, 105])
          (some enc) (some "saida.bin")
        = (Res.ok "saida.bin", st2, fs2) ∧
      FS.lookup fs2 "saida.bin" = some (Entry.file [72, 105]) :=
  c1_roundtrip [72, 105] (by decide) [] (Base64Converter.mk none none)
    "entrada.bin" "saida.bin" (by decide) (by decide) (by decide)

/-- **C2 counterexample.** The text `"QQ==!"` contains a character outside
the standard base64 alphabet and its length is not a multiple of 4, yet
`base64_para_arquivo` succeeds on it and writes a file: Python's lenient
decoder discards characters outside the alphabet. -/
theorem c2_counterexample :
    (∃ c ∈ "QQ==!".data, b64charIndex c = none ∧ c ≠ '=') ∧
    ¬ (4 ∣ "QQ==!".length) ∧
    base64_para_arquivo (Base64Converter.mk none none) []
        (some "QQ==!") (some "/tmp/out.bin")
      = (Res.ok "/tmp/out.bin",
         Base64Converter.mk none (some "/tmp/out.bin"),
         [("/tmp/out.bin", Entry.file [65])]) := by decide

/-- **C2 (amended).** For every text on which Python's lenient base64
decoding fails — after discarding characters outside the alphabet, the
remaining data and padding cannot form complete groups — `base64_para_arquivo`
fails with a `ValueError` wrapping the decode diagnostic, and no file is
written; a character outside the alphabet by itself does not cause failure. -/
theorem c2_invalid_base64 (st : Base64Converter) (fs : FS) (s p : String)
    (hp : p ≠ "") (e : String) (he : b64decode s.data = Except.error e) :
    base64_para_arquivo st fs (some s) (some p)
      = (Res.err (PyError.valueError ("String base64 inválida: " ++ e)), st, fs) := by
  simp [base64_para_arquivo, resolveText, resolveLocation_some hp, he]

/-- **C2 witness.** The spec's own example input fails as described. -/
theorem c2_invalid_base64_witness :
    base64_para_arquivo (Base64Converter.mk none none) []
        (some "not-valid-base64!!") (some "/tmp/out.bin")
      = (Res.err (PyError.valueError
          ("String base64 inválida: " ++ "Incorrect padding")),
         Base64Converter.mk none none, []) :=
  c2_invalid_base64 (Base64Converter.mk none none) [] "not-valid-base64!!"
    "/tmp/out.bin" (by decide) "Incorrect padding" (by decide)

/-- **C3.** For every file of `n` bytes, the text returned by
`arquivo_para_base64` has `ceil(n/3)*4` characters, and encoding a zero-byte
file returns the empty string. -/
theorem c3_encode_length (B : List Nat) (fs : FS) (st : Base64Converter)
    (p : String) (hp : p ≠ "") (hfile : FS.lookup fs p = some (Entry.file B))
    (enc : String) (h : (arquivo_para_base64 st fs (some p)).1 = Res.ok enc) :
    enc.length = (B.length + 2) / 3 * 4 ∧ (B = [] → enc = "") := by
  rw [arquivo_para_base64_file st fs B p hp hfile] at h
  simp only [Res.ok.injEq] at h
  subst h
  refine ⟨?_, ?_⟩
  · show (String.mk (b64encodeList B)).data.length = _
    rw [string_data_mk, b64encodeList_length]
  · rintro rfl
    rfl

/-- **C3 witness.** A three-byte file encodes to 4 characters; a zero-byte
file encodes to the empty string. -/
theorem c3_encode_length_witness :
    (("SGkh" : String).length = (([72, 105, 33] : List Nat).length + 2) / 3 * 4 ∧
      (([72, 105, 33] : List Nat) = [] → ("SGkh" : String) = "")) ∧
    (("" : String).length = (([] : List Nat).length + 2) / 3 * 4 ∧
      (([] : List Nat) = [] → ("" : String) = "")) :=
  ⟨c3_encode_length [72, 105, 33] [("f.bin", Entry.file [72, 105, 33])]
      (Base64Converter.mk none none) "f.bin" (by decide) (by decide) "SGkh" (by decide),
    c3_encode_length [] [("vazio.bin", Entry.file [])]
      (Base64Converter.mk none none) "vazio.bin" (by decide) (by decide) "" (by decide)⟩

/-- **C4.** `arquivo_para_base64` checks its preconditions in order: an
unresolvable location fails with `ValueError` (MissingInput); a resolved
location absent from the filesystem fails with `FileNotFoundError`
(NotFound); a present location that is not a regular file fails with
`ValueError` (InvalidInput); a regular file is read and encoded. -/
theorem c4_precondition_order (st : Base64Converter) (fs : FS) (arg : Option String) :
    (resolveLocation arg st.arquivo_path = none →
      (arquivo_para_base64 st fs arg).1
        = Res.err (PyError.valueError "É necessário fornecer um caminho de arquivo")) ∧
    (∀ p, resolveLocation arg st.arquivo_path = some p → FS.lookup fs p = none →
      (arquivo_para_base64 st fs arg).1
        = Res.err (PyError.fileNotFoundError ("Arquivo não encontrado: " ++ p))) ∧
    (∀ p e, resolveLocation arg st.arquivo_path = some p → FS.lookup fs p = some e →
      (∀ c, e ≠ Entry.file c) →
      (arquivo_para_base64 st fs arg).1
        = Res.err (PyError.valueError ("O caminho não é um arquivo: " ++ p))) ∧
    (∀ p c, resolveLocation arg st.arquivo_path = some p →
      FS.lookup fs p = some (Entry.file c) →
      (arquivo_para_base64 st fs arg).1 = Res.ok (String.mk (b64encodeList c))) := by
  refine ⟨?_, ?_, ?_, ?_⟩
  · intro h
    simp [arquivo_para_base64, h]
  · intro p hr hl
    simp [arquivo_para_base64, hr, hl]
  · intro p e hr hl hne
    cases e with
    | file c => exact absurd rfl (hne c)
    | dir => simp [arquivo_para_base64, hr, hl]
    | special => simp [arquivo_para_base64, hr, hl]
  · intro p c hr hl
    simp [arquivo_para_base64, hr, hl]

/-- **C4 witness.** The four branches at concrete inputs: no argument and no
stored state, a missing path, a directory, and a regular file. -/
theorem c4_precondition_order_witness :
    (arquivo_para_base64 (Base64Converter.mk none none) [] none).1
      = Res.err (PyError.valueError "É necessário fornecer um caminho de arquivo") ∧
    (arquivo_para_base64 (Base64Converter.mk none none) [] (some "missing.bin")).1
      = Res.err (PyError.fileNotFoundError ("Arquivo não encontrado: " ++ "missing.bin")) ∧
    (arquivo_para_base64 (Base64Converter.mk none none)
        [("pasta", Entry.dir)] (some "pasta")).1
      = Res.err (PyError.valueError ("O caminho não é um arquivo: " ++ "pasta")) ∧
    (arquivo_para_base64 (Base64Converter.mk none none)
        [("f.bin", Entry.file [65])] (some "f.bin")).1
      = Res.ok (String.mk (b64encodeList [65])) :=
  ⟨(c4_precondition_order (Base64Converter.mk none none) [] none).1 (by decide),
   (c4_precondition_order (Base64Converter.mk none none) [] (some "missing.bin")).2.1
      "missing.bin" (by decide) (by decide),
   (c4_precondition_order (Base64Converter.mk none none) [("pasta", Entry.dir)]
      (some "pasta")).2.2.1 "pasta" Entry.dir (by decide) (by decide) (by simp),
   (c4_precondition_order (Base64Converter.mk none none) [("f.bin", Entry.file [65])]
      (some "f.bin")).2.2.2 "f.bin" [65] (by decide) (by decide)⟩

/-- **C5.** After every successful `arquivo_para_base64`, the stored
`base64_string` equals the returned text; after every successful
`base64_para_arquivo`, the stored `arquivo_path` equals the returned
destination. -/
theorem c5_state_after_success (st : Base64Converter) (fs : FS)
    (arg targ parg : Option String) :
    (∀ enc st1 fs1, arquivo_para_base64 st fs arg = (Res.ok enc, st1, fs1) →
      st1.base64_string = some enc) ∧
    (∀ q st2 fs2, base64_para_arquivo st fs targ parg = (Res.ok q, st2, fs2) →
      st2.arquivo_path = some q) := by
  constructor
  · intro enc st1 fs1 h
    unfold arquivo_para_base64 at h
    split at h
    · simp at h
    · split at h
      · simp at h
      · simp only [Prod.mk.injEq, Res.ok.injEq] at h
        obtain ⟨h1, h2, -⟩ := h
        subst h1
        subst h2
        rfl
      · simp at h
  · intro q st2 fs2 h
    unfold base64_para_arquivo at h
    split at h
    · simp at h
    · split at h
      · simp at h
      · split at h
        · simp at h
        · simp only [Prod.mk.injEq, Res.ok.injEq] at h
          obtain ⟨h1, h2, -⟩ := h
          subst h1
          subst h2
          rfl

/-- **C5 witness.** A concrete successful encode stores the returned text; a
concrete successful decode stores the returned destination. -/
theorem c5_state_after_success_witness :
    (Base64Converter.mk (some "QQ==") none).base64_string = some "QQ==" ∧
    (Base64Converter.mk none (some "out.bin")).arquivo_path = some "out.bin" :=
  ⟨(c5_state_after_success (Base64Converter.mk none none)
      [("f.bin", Entry.file [65])] (some "f.bin") none none).1
      "QQ==" (Base64Converter.mk (some "QQ==") none)
      [("f.bin", Entry.file [65])] (by decide),
   (c5_state_after_success (Base64Converter.mk none none) [] none
      (some "QQ==") (some "out.bin")).2
      "out.bin" (Base64Converter.mk none (some "out.bin"))
      (FS.write [] "out.bin" [65]) (by decide)⟩

/-- **C6.** `desconverter` fails with `ValueError` (MissingInput) whenever no
text is stored, before delegating; with stored text it delegates to
`base64_para_arquivo` with the given destination. -/
theorem c6_desconverter (st : Base64Converter) (fs : FS) (p : String) :
    (st.base64_string = none →
      desconverter st fs p
        = (Res.err (PyError.valueError
            "É necessário ter uma string base64. Use converter() primeiro ou forneça base64_string."),
           st, fs)) ∧
    (st.base64_string ≠ none →
      desconverter st fs p = base64_para_arquivo st fs none (some p)) := by
  constructor
  · intro h
    simp [desconverter, h]
  · intro h
    cases hs : st.base64_string with
    | none => exact absurd hs h
    | some s => simp [desconverter, hs]

/-- **C6 witness.** With no stored text `desconverter` fails with the missing
input `ValueError`; with stored text it delegates. -/
theorem c6_desconverter_witness :
    desconverter (Base64Converter.mk none none) [] "out.bin"
      = (Res.err (PyError.valueError
          "É necessário ter uma string base64. Use converter() primeiro ou forneça base64_string."),
         Base64Converter.mk none none, []) ∧
    desconverter (Base64Converter.mk (some "QQ==") none) [] "out.bin"
      = base64_para_arquivo (Base64Converter.mk (some "QQ==") none) []
          none (some "out.bin") :=
  ⟨(c6_desconverter (Base64Converter.mk none none) [] "out.bin").1 rfl,
   (c6_desconverter (Base64Converter.mk (some "QQ==") none) [] "out.bin").2 (by simp)⟩

/-- **C7.** Assigning a non-string value through the `base64_string` setter
fails with `TypeError` and leaves the whole state unchanged; assigning a
string succeeds and stores it. -/
theorem c7_setter (st : Base64Converter) (v : PyVal) :
    (∀ s, v = PyVal.str s →
      set_base64_string st v = (Res.ok (), { st with base64_string := some s })) ∧
    ((∀ s, v ≠ PyVal.str s) →
      (set_base64_string st v).1
          = Res.err (PyError.typeError "base64_string deve ser uma string") ∧
        (set_base64_string st v).2 = st) := by
  constructor
  · rintro s rfl
    rfl
  · intro h
    cases v with
    | str s => exact absurd rfl (h s)
    | intVal n => exact ⟨rfl, rfl⟩
    | noneVal => exact ⟨rfl, rfl⟩
    | bytesVal b => exact ⟨rfl, rfl⟩

/-- **C7 witness.** Assigning `None` raises `TypeError` and preserves the
stored text; assigning a string stores it. -/
theorem c7_setter_witness :
    set_base64_string (Base64Converter.mk none none) (PyVal.str "QQ==")
      = (Res.ok (), Base64Converter.mk (some "QQ==") none) ∧
    ((set_base64_string (Base64Converter.mk (some "QQ==") none) PyVal.noneVal).1
        = Res.err (PyError.typeError "base64_string deve ser uma string") ∧
      (set_base64_string (Base64Converter.mk (some "QQ==") none) PyVal.noneVal).2
        = Base64Converter.mk (some "QQ==") none) :=
  ⟨(c7_setter (Base64Converter.mk none none) (PyVal.str "QQ==")).1 "QQ==" rfl,
   (c7_setter (Base64Converter.mk (some "QQ==") none) PyVal.noneVal).2 (by simp)⟩

/-- **C8.** Encoding is deterministic: two runs of `arquivo_para_base64` over
files with the same byte content return identical text, regardless of the
converters' prior states and the rest of the filesystems. -/
theorem c8_deterministic (st1 st2 : Base64Converter) (fs1 fs2 : FS)
    (p1 p2 : String) (B : List Nat) (hp1 : p1 ≠ "") (hp2 : p2 ≠ "")
    (h1 : FS.lookup fs1 p1 = some (Entry.file B))
    (h2 : FS.lookup fs2 p2 = some (Entry.file B)) :
    (arquivo_para_base64 st1 fs1 (some p1)).1
      = (arquivo_para_base64 st2 fs2 (some p2)).1 := by
  rw [arquivo_para_base64_file st1 fs1 B p1 hp1 h1,
      arquivo_para_base64_file st2 fs2 B p2 hp2 h2]

/-- **C8 witness.** Two converters with different prior states encode the
same bytes identically. -/
theorem c8_deterministic_witness :
    (arquivo_para_base64 (Base64Converter.mk none none)
        [("a.bin", Entry.file [0, 255])] (some "a.bin")).1
      = (arquivo_para_base64 (Base64Converter.mk (some "xyz") (some "outro"))
        [("b.bin", Entry.file [0, 255]), ("a.bin", Entry.dir)] (some "b.bin")).1 :=
  c8_deterministic (Base64Converter.mk none none)
    (Base64Converter.mk (some "xyz") (some "outro"))
    [("a.bin", Entry.file [0, 255])]
    [("b.bin", Entry.file [0, 255]), ("a.bin", Entry.dir)]
    "a.bin" "b.bin" [0, 255] (by decide) (by decide) (by decide) (by decide)

/-- **C9.** An explicit empty-string location argument to encode or decode is
treated as absent (the operation falls back to the stored location, or fails
with the missing-input `ValueError` if none is stored, exactly as when called
with `None`), whereas an explicit empty-string text argument to decode is
used rather than replaced by the stored text: locations are resolved by
truthiness, text by an is-`None` test. -/
theorem c9_empty_string_arguments (st : Base64Converter) (fs : FS)
    (targ parg : Option String) :
    arquivo_para_base64 st fs (some "") = arquivo_para_base64 st fs none ∧
    base64_para_arquivo st fs targ (some "") = base64_para_arquivo st fs targ none ∧
    (∀ p, resolveLocation parg st.arquivo_path = some p →
      base64_para_arquivo st fs (some "") parg
        = (Res.ok p, { st with arquivo_path := some p }, FS.write fs p [])) ∧
    (resolveLocation parg st.arquivo_path = none →
      (base64_para_arquivo st fs (some "") parg).1
        = Res.err (PyError.valueError
            "É necessário fornecer um caminho para salvar o arquivo")) := by
  refine ⟨?_, ?_, ?_, ?_⟩
  · simp [arquivo_para_base64, resolveLocation, truthy]
  · simp [base64_para_arquivo, resolveLocation, truthy]
  · intro p hr
    have hd : b64decode ("" : String).data = Except.ok [] := by decide
    simp [base64_para_arquivo, resolveText, hr, hd]
  · intro hr
    simp [base64_para_arquivo, resolveText, hr]

/-- **C9 witness.** Concretely: an empty-string location behaves as `None`;
an empty-string text is decoded (writing an empty file) even though a
different text is stored; with nothing resolvable the decode fails with the
missing-path `ValueError`. -/
theorem c9_empty_string_arguments_witness :
    arquivo_para_base64 (Base64Converter.mk (some "QQ==") none) [] (some "")
      = arquivo_para_base64 (Base64Converter.mk (some "QQ==") none) [] none ∧
    base64_para_arquivo (Base64Converter.mk (some "QQ==") none) [] none (some "")
      = base64_para_arquivo (Base64Converter.mk (some "QQ==") none) [] none none ∧
    base64_para_arquivo (Base64Converter.mk (some "QQ==") none) []
        (some "") (some "o.bin")
      = (Res.ok "o.bin", Base64Converter.mk (some "QQ==") (some "o.bin"),
         FS.write [] "o.bin" []) ∧
    (base64_para_arquivo (Base64Converter.mk none none) [] (some "") none).1
      = Res.err (PyError.valueError
          "É necessário fornecer um caminho para salvar o arquivo") :=
  ⟨(c9_empty_string_arguments (Base64Converter.mk (some "QQ==") none) []
      none (some "o.bin")).1,
   (c9_empty_string_arguments (Base64Converter.mk (some "QQ==") none) []
      none (some "o.bin")).2.1,
   (c9_empty_string_arguments (Base64Converter.mk (some "QQ==") none) []
      none (some "o.bin")).2.2.1 "o.bin" (by decide),
   (c9_empty_string_arguments (Base64Converter.mk none none) []
      none none).2.2.2 (by decide)⟩

/-- **C10.** Whenever `arquivo_para_base64` fails, the stored text is
unchanged; whenever `base64_para_arquivo` fails (its errors are the
missing-input and invalid-input `ValueError`s), the stored location is
unchanged. -/
theorem c10_failure_preserves_state (st : Base64Converter) (fs : FS)
    (arg targ parg : Option String) :
    (∀ e st1 fs1, arquivo_para_base64 st fs arg = (Res.err e, st1, fs1) →
      st1.base64_string = st.base64_string) ∧
    (∀ e st2 fs2, base64_para_arquivo st fs targ parg = (Res.err e, st2, fs2) →
      st2.arquivo_path = st.arquivo_path) := by
  constructor
  · intro e st1 fs1 h
    unfold arquivo_para_base64 at h
    split at h
    · simp only [Prod.mk.injEq] at h
      obtain ⟨-, h2, -⟩ := h
      subst h2
      rfl
    · split at h
      · simp only [Prod.mk.injEq] at h
        obtain ⟨-, h2, -⟩ := h
        subst h2
        rfl
      · simp at h
      · simp only [Prod.mk.injEq] at h
        obtain ⟨-, h2, -⟩ := h
        subst h2
        rfl
  · intro e st2 fs2 h
    unfold base64_para_arquivo at h
    split at h
    · simp only [Prod.mk.injEq] at h
      obtain ⟨-, h2, -⟩ := h
      subst h2
      rfl
    · split at h
      · simp only [Prod.mk.injEq] at h
        obtain ⟨-, h2, -⟩ := h
        subst h2
        rfl
      · split at h
        · simp only [Prod.mk.injEq] at h
          obtain ⟨-, h2, -⟩ := h
          subst h2
          rfl
        · simp at h

/-- **C10 witness.** A failing encode and a failing decode each leave the
corresponding stored field as it was. -/
theorem c10_failure_preserves_state_witness :
    (Base64Converter.mk (some "mantido") none).base64_string
      = (Base64Converter.mk (some "mantido") none).base64_string ∧
    (Base64Converter.mk none (some "lugar")).arquivo_path
      = (Base64Converter.mk none (some "lugar")).arquivo_path :=
  ⟨(c10_failure_preserves_state (Base64Converter.mk (some "mantido") none) []
      none none none).1
      (PyError.valueError "É necessário fornecer um caminho de arquivo")
      (Base64Converter.mk (some "mantido") none) [] (by decide),
   (c10_failure_preserves_state (Base64Converter.mk none (some "lugar")) []
      none none none).2
      (PyError.valueError "É necessário fornecer uma string base64")
      (Base64Converter.mk none (some "lugar")) [] (by decide)⟩

example : b64decode "QQ==".data = Except.ok [65] := by decide
example : b64decode "".data = Except.ok [] := by decide
example : b64encodeList [65] = "QQ==".data := by decide
example : b64decode "QQ=".data = Except.error "Incorrect padding" := by decide
example : b64decode "QQ==!".data = Except.ok [65] := by decide
example : b64decode "not-valid-base64!!".data = Except.error "Incorrect padding" := by decide
example : b64encodeList [72, 105, 33] = "SGkh".data := by decide
example : b64decode "SGkh".data = Except.ok [72, 105, 33] := by decide
